import Mathlib

/-!
Verification development for the `multi_containers` Rust crate.

The crate provides `MultiMap<M>` (src/multimap.rs) and `MultiSet<M>`
(src/multiset.rs), managed wrappers around a pluggable backing map `M`.
We embed the library instantiated at its sorted tree backend
(`TreeMap` in src/maps/tree_map.rs, delegating to `std::collections::BTreeMap`):
the backing map is a strictly key-sorted association list, and each public
operation of the wrappers is translated statement by statement from the Rust
source.  The value sets of the multimap are modelled as duplicate-free lists
(the observable contract of `Set::insert`/`Container::remove` in src/sets.rs).
-/

namespace MultiContainers

/-- Association list model of a backing map: the `data` of a `BTreeMap` in order. -/
abbrev AList (α β : Type) := List (α × β)

/-- `BTreeMap::get`: the value stored at key `k`, if any (first match). -/
def mapGet {α β : Type} [DecidableEq α] (k : α) : AList α β → Option β
  | [] => none
  | (a, b) :: t => if k = a then some b else mapGet k t

/-- Store `v` at key `k`, keeping the list sorted: the net effect on a
`BTreeMap` of `entry(k).or_insert_with(..)` followed by writing `v` through the
returned mutable reference (which is how `get_or_insert` is used by the crate),
or of `insert(k, v)`. -/
def mapSet {α β : Type} [LinearOrder α] (k : α) (v : β) : AList α β → AList α β
  | [] => [(k, v)]
  | (a, b) :: t =>
    if k < a then (k, v) :: (a, b) :: t
    else if k = a then (k, v) :: t
    else (a, b) :: mapSet k v t

/-- `BTreeMap::remove`: the removed value, if any, and the remaining map. -/
def mapRemove {α β : Type} [DecidableEq α] (k : α) : AList α β → Option β × AList α β
  | [] => (none, [])
  | (a, b) :: t =>
    if k = a then (some b, t)
    else ((mapRemove k t).1, (a, b) :: (mapRemove k t).2)

/-- Well-formedness of the tree-backend model: keys strictly increasing. -/
abbrev mapWF {α β : Type} [LinearOrder α] (l : AList α β) : Prop :=
  l.Pairwise (fun p q => p.1 < q.1)

/-- Bound of a Rust `std::ops::RangeBounds` end: `Included`, `Excluded` or `Unbounded`. -/
inductive RBound (α : Type) where
  | incl : α → RBound α
  | excl : α → RBound α
  | unb : RBound α

/-- A key range, as the pair of its start and end bounds. -/
structure KRange (α : Type) where
  lo : RBound α
  hi : RBound α

/-- Whether `k` satisfies the start bound. -/
def RBound.lowerOk {α : Type} [LinearOrder α] : RBound α → α → Bool
  | .incl a, k => decide (a ≤ k)
  | .excl a, k => decide (a < k)
  | .unb, _ => true

/-- Whether `k` satisfies the end bound. -/
def RBound.upperOk {α : Type} [LinearOrder α] : RBound α → α → Bool
  | .incl b, k => decide (k ≤ b)
  | .excl b, k => decide (k < b)
  | .unb, _ => true

/-- Whether `k` lies inside the range. -/
def KRange.containsB {α : Type} [LinearOrder α] (r : KRange α) (k : α) : Bool :=
  r.lo.lowerOk k && r.hi.upperOk k

/-- `BTreeMap::range`: the entries whose key lies within the bounds, in
ascending key order — on the sorted association list, exactly the filter. -/
def mapRange {α β : Type} [LinearOrder α] (r : KRange α) (l : AList α β) : AList α β :=
  l.filter (fun p => r.containsB p.1)

/-- `Set::insert` of src/sets.rs: adds `value`, returns whether it was newly
added (`false` if already present). -/
def setInsert {β : Type} [DecidableEq β] (v : β) (s : List β) : Bool × List β :=
  if v ∈ s then (false, s) else (true, s ++ [v])

/-- `Container::remove` of src/sets.rs: removes `value`, returns whether it was present. -/
def setRemove {β : Type} [DecidableEq β] (v : β) (s : List β) : Bool × List β :=
  if v ∈ s then (true, s.erase v) else (false, s)

/-- `Container::contains` of src/sets.rs. -/
def setContains {β : Type} [DecidableEq β] (v : β) (s : List β) : Bool :=
  decide (v ∈ s)

/-- `MultiMap` of src/multimap.rs: a backing map from keys to value sets plus
the maintained `length` counter. -/
structure MultiMap (α β : Type) where
  map : AList α (List β)
  length : Nat
deriving DecidableEq

/-- `MultiMap::new`. -/
def MultiMap.new {α β : Type} : MultiMap α β := ⟨[], 0⟩

/-- `MultiMap::insert` (src/multimap.rs lines 62-72):
`get_or_insert(key, Default::default)` then `insert(value)` on the returned
set; on a newly added value, `length` is incremented and `true` returned. -/
def MultiMap.insert {α β : Type} [LinearOrder α] [DecidableEq β]
    (m : MultiMap α β) (k : α) (v : β) : Bool × MultiMap α β :=
  let s := (mapGet k m.map).getD []
  let r := setInsert v s
  let map2 := mapSet k r.2 m.map
  if r.1 then (true, ⟨map2, m.length + 1⟩) else (false, ⟨map2, m.length⟩)

/-- `MultiMap::contains` (src/multimap.rs lines 85-95). -/
def MultiMap.contains {α β : Type} [DecidableEq α] [DecidableEq β]
    (m : MultiMap α β) (k : α) (v : β) : Bool :=
  match mapGet k m.map with
  | none => false
  | some s => setContains v s

/-- `MultiMap::contains_key` (src/multimap.rs lines 108-115). -/
def MultiMap.contains_key {α β : Type} [DecidableEq α] (m : MultiMap α β) (k : α) : Bool :=
  (mapGet k m.map).isSome

/-- `MultiMap::remove` (src/multimap.rs lines 133-152): look up the set,
remove the value through the mutable reference; on success decrement `length`
and, if the set became empty, remove the map entry. -/
def MultiMap.remove {α β : Type} [LinearOrder α] [DecidableEq β]
    (m : MultiMap α β) (k : α) (v : β) : Bool × MultiMap α β :=
  match mapGet k m.map with
  | none => (false, m)
  | some s =>
    let r := setRemove v s
    if r.1 then
      let len2 := m.length - 1
      if r.2.isEmpty then (true, ⟨(mapRemove k m.map).2, len2⟩)
      else (true, ⟨mapSet k r.2 m.map, len2⟩)
    else (false, m)

/-- `MultiMap::remove_key` (src/multimap.rs lines 167-174): exactly
`self.map.remove(key)` — the `length` counter is NOT touched by the source. -/
def MultiMap.remove_key {α β : Type} [DecidableEq α]
    (m : MultiMap α β) (k : α) : Option (List β) × MultiMap α β :=
  let r := mapRemove k m.map
  (r.1, ⟨r.2, m.length⟩)

/-- `MultiMap::get` (src/multimap.rs lines 190-197). -/
def MultiMap.get {α β : Type} [DecidableEq α] (m : MultiMap α β) (k : α) : Option (List β) :=
  mapGet k m.map

/-- `MultiMap::keys` (src/multimap.rs lines 213-215). -/
def MultiMap.keys {α β : Type} (m : MultiMap α β) : List α :=
  m.map.map Prod.fst

/-- `MultiMap::value_sets` (src/multimap.rs lines 236-238): the backing map's entries. -/
def MultiMap.value_sets {α β : Type} (m : MultiMap α β) : AList α (List β) :=
  m.map

/-- `MultiMap::mappings` (src/multimap.rs lines 256-259):
`value_sets().flat_map(|(k, s)| s.iter().map(move |v| (k, v)))`. -/
def MultiMap.mappings {α β : Type} (m : MultiMap α β) : List (α × β) :=
  m.value_sets.flatMap (fun p => p.2.map (fun v => (p.1, v)))

/-- `MultiMap::is_empty` (src/multimap.rs lines 274-276): backing map emptiness. -/
def MultiMap.is_empty {α β : Type} (m : MultiMap α β) : Bool :=
  m.map.isEmpty

/-- `MultiMap::num_keys` (src/multimap.rs lines 295-297). -/
def MultiMap.num_keys {α β : Type} (m : MultiMap α β) : Nat :=
  m.map.length

/-- `MultiMap::num_mappings` (src/multimap.rs lines 317-319): the maintained counter. -/
def MultiMap.num_mappings {α β : Type} (m : MultiMap α β) : Nat :=
  m.length

/-- `MultiMap::value_sets_in_range` (src/multimap.rs lines 334-342). -/
def MultiMap.value_sets_in_range {α β : Type} [LinearOrder α]
    (m : MultiMap α β) (r : KRange α) : AList α (List β) :=
  mapRange r m.map

/-- `MultiMap::mappings_in_range` (src/multimap.rs lines 358-371):
`self.map.range(range).flat_map(|(k, s)| s.iter().map(move |v| (k, v)))`. -/
def MultiMap.mappings_in_range {α β : Type} [LinearOrder α]
    (m : MultiMap α β) (r : KRange α) : List (α × β) :=
  (mapRange r m.map).flatMap (fun p => p.2.map (fun v => (p.1, v)))

/-- `Extend::extend` / `FromIterator` for `MultiMap` (src/multimap.rs lines
374-397): repeated `insert`. -/
def MultiMap.extend {α β : Type} [LinearOrder α] [DecidableEq β]
    (m : MultiMap α β) (l : List (α × β)) : MultiMap α β :=
  l.foldl (fun acc p => (acc.insert p.1 p.2).2) m

/-- `MultiSet` of src/multiset.rs: a backing map from values to counts plus
the maintained `length` counter. -/
structure MultiSet (α : Type) where
  map : AList α Nat
  length : Nat
deriving DecidableEq

/-- `MultiSet::new`. -/
def MultiSet.new {α : Type} : MultiSet α := ⟨[], 0⟩

/-- `MultiSet::insert_some` (src/multiset.rs lines 77-81):
`length += count`, then `get_or_insert(value, || 0)` and `*have += count`
through the returned reference; the previous count is returned.  Note that for
`count = 0` on an absent value this stores an entry with count `0`. -/
def MultiSet.insert_some {α : Type} [LinearOrder α]
    (s : MultiSet α) (v : α) (c : Nat) : Nat × MultiSet α :=
  let len2 := s.length + c
  let prev := (mapGet v s.map).getD 0
  (prev, ⟨mapSet v (prev + c) s.map, len2⟩)

/-- `MultiSet::insert` (src/multiset.rs lines 58-60): `insert_some(value, 1)`. -/
def MultiSet.insert {α : Type} [LinearOrder α] (s : MultiSet α) (v : α) : Nat × MultiSet α :=
  s.insert_some v 1

/-- `MultiSet::remove_at_most` (src/multiset.rs lines 159-178): clamp the
decrement to the stored count, update `length`, and prune the entry when its
count reaches zero; the previous count is returned. -/
def MultiSet.remove_at_most {α : Type} [LinearOrder α]
    (s : MultiSet α) (v : α) (mx : Nat) : Nat × MultiSet α :=
  match mapGet v s.map with
  | none => (0, s)
  | some cnt =>
    let removed := min cnt mx
    let c2 := cnt - removed
    let map2 := if c2 = 0 then (mapRemove v s.map).2 else mapSet v c2 s.map
    (cnt, ⟨map2, s.length - removed⟩)

/-- `MultiSet::remove` (src/multiset.rs lines 132-139): `remove_at_most(value, 1)`. -/
def MultiSet.remove {α : Type} [LinearOrder α] (s : MultiSet α) (v : α) : Nat × MultiSet α :=
  s.remove_at_most v 1

/-- `MultiSet::remove_all` (src/multiset.rs lines 196-209): remove the entry
and decrement `length` by the removed count. -/
def MultiSet.remove_all {α : Type} [LinearOrder α] (s : MultiSet α) (v : α) : Nat × MultiSet α :=
  match (mapRemove v s.map).1 with
  | some cnt => (cnt, ⟨(mapRemove v s.map).2, s.length - cnt⟩)
  | none => (0, s)

/-- `MultiSet::set_count` (src/multiset.rs lines 99-112): count `0` delegates
to `remove_all`; otherwise store the new count and adjust `length` by
`+ count - prev` in the source's order. -/
def MultiSet.set_count {α : Type} [LinearOrder α]
    (s : MultiSet α) (v : α) (c : Nat) : Nat × MultiSet α :=
  if c = 0 then s.remove_all v
  else
    let prev := (mapGet v s.map).getD 0
    (prev, ⟨mapSet v c s.map, s.length + c - prev⟩)

/-- `MultiSet::contains` (src/multiset.rs lines 224-231): `map.contains_key`. -/
def MultiSet.contains {α : Type} [DecidableEq α] (s : MultiSet α) (v : α) : Bool :=
  (mapGet v s.map).isSome

/-- `MultiSet::count` (src/multiset.rs lines 246-253). -/
def MultiSet.count {α : Type} [DecidableEq α] (s : MultiSet α) (v : α) : Nat :=
  (mapGet v s.map).getD 0

/-- `MultiSet::is_empty` (src/multiset.rs lines 268-270): `length == 0`. -/
def MultiSet.is_empty {α : Type} (s : MultiSet α) : Bool :=
  s.length = 0

/-- `MultiSet::len` (src/multiset.rs lines 290-292): the maintained counter. -/
def MultiSet.len {α : Type} (s : MultiSet α) : Nat :=
  s.length

/-- `MultiSet::iter` (src/multiset.rs lines 308-312):
`map.iter().flat_map(|(k, &v)| repeat(k).take(v))`. -/
def MultiSet.iter {α : Type} (s : MultiSet α) : List α :=
  s.map.flatMap (fun p => List.replicate p.2 p.1)

/-- `MultiSet::counts` (src/multiset.rs lines 327-329): the backing map's entries. -/
def MultiSet.counts {α : Type} (s : MultiSet α) : AList α Nat :=
  s.map

/-- `MultiSet::range` (src/multiset.rs lines 346-356):
`map.range(range).flat_map(|(k, &v)| repeat(k).take(v))`. -/
def MultiSet.range {α : Type} [LinearOrder α] (s : MultiSet α) (r : KRange α) : List α :=
  (mapRange r s.map).flatMap (fun p => List.replicate p.2 p.1)

/-- `MultiSet::range_counts` (src/multiset.rs lines 372-380). -/
def MultiSet.range_counts {α : Type} [LinearOrder α]
    (s : MultiSet α) (r : KRange α) : AList α Nat :=
  mapRange r s.map

/-- `<MultiSet as Set>::insert` (src/sets.rs lines 127-129): `self.insert(value) == 0`. -/
def MultiSet.set_adapter_insert {α : Type} [LinearOrder α]
    (s : MultiSet α) (v : α) : Bool × MultiSet α :=
  let r := s.insert v
  (decide (r.1 = 0), r.2)

/-- `<MultiSet as Container>::remove` (src/sets.rs lines 151-153): `self.remove(value) == 1`. -/
def MultiSet.container_adapter_remove {α : Type} [LinearOrder α]
    (s : MultiSet α) (v : α) : Bool × MultiSet α :=
  let r := s.remove v
  (decide (r.1 = 1), r.2)

/-! ### Lemmas about the backing-map model -/

theorem pairwise_of_total {γ : Type} {R : γ → γ → Prop} (h : ∀ a b, R a b) :
    ∀ l : List γ, l.Pairwise R
  | [] => List.Pairwise.nil
  | x :: t => List.Pairwise.cons (fun b _ => h x b) (pairwise_of_total h t)

theorem mapGet_cons {α β : Type} [DecidableEq α] (k a : α) (b : β) (t : AList α β) :
    mapGet k ((a, b) :: t) = if k = a then some b else mapGet k t := rfl

theorem mapGet_eq_none_iff {α β : Type} [DecidableEq α] {k : α} {l : AList α β} :
    mapGet k l = none ↔ k ∉ l.map Prod.fst := by
  induction l with
  | nil => simp [mapGet]
  | cons p t ih =>
    obtain ⟨a, b⟩ := p
    by_cases hk : k = a
    · subst hk
      simp [mapGet_cons]
    · simp [mapGet_cons, hk, ih]

theorem mapGet_mapSet_self {α β : Type} [LinearOrder α] (k : α) (v : β) (l : AList α β) :
    mapGet k (mapSet k v l) = some v := by
  induction l with
  | nil => simp [mapSet, mapGet_cons]
  | cons p t ih =>
    obtain ⟨a, b⟩ := p
    by_cases h1 : k < a
    · simp [mapSet, h1, mapGet_cons]
    · by_cases h2 : k = a
      · simp [mapSet, h1, h2, mapGet_cons]
      · simp [mapSet, h1, h2, mapGet_cons, ih]

theorem mapSet_idem {α β : Type} [LinearOrder α] (k : α) (v : β) (l : AList α β) :
    mapSet k v (mapSet k v l) = mapSet k v l := by
  induction l with
  | nil => simp [mapSet]
  | cons p t ih =>
    obtain ⟨a, b⟩ := p
    by_cases h1 : k < a
    · simp [mapSet, h1]
    · by_cases h2 : k = a
      · subst h2
        simp [mapSet, h1]
      · simp [mapSet, h1, h2, ih]

theorem mapRemove_fst {α β : Type} [DecidableEq α] (k : α) (l : AList α β) :
    (mapRemove k l).1 = mapGet k l := by
  induction l with
  | nil => rfl
  | cons p t ih =>
    obtain ⟨a, b⟩ := p
    by_cases hk : k = a
    · simp [mapRemove, mapGet_cons, hk]
    · simp [mapRemove, mapGet_cons, hk, ih]

theorem mapRemove_eq_of_get_none {α β : Type} [DecidableEq α] {k : α} {l : AList α β}
    (h : mapGet k l = none) : mapRemove k l = (none, l) := by
  induction l with
  | nil => rfl
  | cons p t ih =>
    obtain ⟨a, b⟩ := p
    rw [mapGet_cons] at h
    by_cases hk : k = a
    · simp [hk] at h
    · rw [if_neg hk] at h
      simp [mapRemove, hk, ih h]

theorem mapGet_mapRemove_self {α β : Type} [LinearOrder α] {k : α} {l : AList α β}
    (h : mapWF l) : mapGet k (mapRemove k l).2 = none := by
  induction l with
  | nil => simp [mapRemove, mapGet]
  | cons p t ih =>
    obtain ⟨a, b⟩ := p
    replace h := List.pairwise_cons.1 h
    by_cases hk : k = a
    · subst hk
      simp only [mapRemove, if_pos rfl]
      rw [mapGet_eq_none_iff]
      intro hmem
      obtain ⟨q, hq, hfst⟩ := List.mem_map.1 hmem
      exact absurd (hfst ▸ h.1 q hq) (lt_irrefl k)
    · simp [mapRemove, hk, mapGet_cons, ih h.2]

theorem mapWF_filter {α β : Type} [LinearOrder α] (P : α × β → Bool) {l : AList α β}
    (h : mapWF l) : mapWF (l.filter P) :=
  h.sublist (List.filter_sublist l)

/-! ### Lemmas about the flattened iterators -/

theorem filter_fst_map_const {α γ : Type} (P : α → Bool) (k : α) (s : List γ) :
    ((s.map fun v => (k, v)).filter fun q => P q.1) =
      if P k then s.map (fun v => (k, v)) else [] := by
  induction s with
  | nil => simp
  | cons x t ih =>
    by_cases h : P k <;> simp [List.filter_cons, h, ih]

theorem filter_replicate_const {α : Type} (P : α → Bool) (k : α) (n : Nat) :
    ((List.replicate n k).filter P) = if P k then List.replicate n k else [] := by
  induction n with
  | zero => simp
  | succ n ih =>
    by_cases h : P k <;> simp [List.replicate_succ, List.filter_cons, h, ih]

theorem flatMap_pairs_filter {α γ : Type} (P : α → Bool) (l : AList α (List γ)) :
    ((l.filter fun p => P p.1).flatMap fun p => p.2.map fun v => (p.1, v)) =
      (l.flatMap fun p => p.2.map fun v => (p.1, v)).filter fun q => P q.1 := by
  induction l with
  | nil => rfl
  | cons p t ih =>
    by_cases h : P p.1 <;>
      simp [List.filter_cons, h, List.flatMap_cons, List.filter_append, ih,
        filter_fst_map_const]

theorem flatMap_replicate_filter {α : Type} (P : α → Bool) (l : AList α Nat) :
    ((l.filter fun p => P p.1).flatMap fun p => List.replicate p.2 p.1) =
      (l.flatMap fun p => List.replicate p.2 p.1).filter P := by
  induction l with
  | nil => rfl
  | cons p t ih =>
    by_cases h : P p.1 <;>
      simp [List.filter_cons, h, List.flatMap_cons, List.filter_append, ih,
        filter_replicate_const]

theorem pairwise_fst_flatMap_pairs {α γ : Type} [Preorder α] {l : AList α (List γ)}
    (h : l.Pairwise fun p q => p.1 < q.1) :
    (l.flatMap fun p => p.2.map fun v => (p.1, v)).Pairwise
      (fun x y : α × γ => x.1 ≤ y.1) := by
  induction l with
  | nil => simp
  | cons p t ih =>
    rw [List.pairwise_cons] at h
    rw [List.flatMap_cons, List.pairwise_append]
    refine ⟨List.pairwise_map.2 (pairwise_of_total (fun a b => le_refl p.1) _), ih h.2, ?_⟩
    intro x hx y hy
    obtain ⟨v, _, rfl⟩ := List.mem_map.1 hx
    obtain ⟨q, hq, hyq⟩ := List.mem_flatMap.1 hy
    obtain ⟨w, _, rfl⟩ := List.mem_map.1 hyq
    exact le_of_lt (h.1 q hq)

theorem pairwise_replicate_of_refl {γ : Type} {R : γ → γ → Prop} {a : γ} (h : R a a) :
    ∀ n, (List.replicate n a).Pairwise R := by
  intro n
  induction n with
  | zero => simp
  | succ n ih =>
    rw [List.replicate_succ, List.pairwise_cons]
    refine ⟨fun b hb => ?_, ih⟩
    rw [((List.mem_replicate).1 hb).2]
    exact h

theorem pairwise_flatMap_replicate {α : Type} [Preorder α] {l : AList α Nat}
    (h : l.Pairwise fun p q => p.1 < q.1) :
    (l.flatMap fun p => List.replicate p.2 p.1).Pairwise (· ≤ ·) := by
  induction l with
  | nil => simp
  | cons p t ih =>
    rw [List.pairwise_cons] at h
    rw [List.flatMap_cons, List.pairwise_append]
    refine ⟨pairwise_replicate_of_refl (le_refl p.1) _, ih h.2, ?_⟩
    intro x hx y hy
    obtain ⟨-, rfl⟩ := (List.mem_replicate).1 hx
    obtain ⟨q, hq, hyq⟩ := List.mem_flatMap.1 hy
    obtain ⟨-, rfl⟩ := (List.mem_replicate).1 hyq
    exact le_of_lt (h.1 q hq)

/-! ### Claim theorems -/

/-- Claim C1: `remove_key` is claimed to remove the entry, return the removed
value set, and decrement the mapping counter by the removed set's size.  The
source (src/multimap.rs lines 167-174) removes the entry and returns the set
but never touches `length`: after `insert(1, 2)` then `remove_key(1)`, the
entry is gone and `[2]` is returned, yet `num_mappings()` is still `1` instead
of `1 - 1 = 0`. -/
theorem c1_remove_key_keeps_stale_length :
    ((((MultiMap.new : MultiMap Nat Nat).insert 1 2).2.remove_key 1).1 = some [2]) ∧
    ((((MultiMap.new : MultiMap Nat Nat).insert 1 2).2.remove_key 1).2.map = []) ∧
    (((MultiMap.new : MultiMap Nat Nat).insert 1 2).2.num_mappings = 1) ∧
    ((((MultiMap.new : MultiMap Nat Nat).insert 1 2).2.remove_key 1).2.num_mappings = 1) ∧
    ((((MultiMap.new : MultiMap Nat Nat).insert 1 2).2.remove_key 1).2.num_mappings ≠
      ((MultiMap.new : MultiMap Nat Nat).insert 1 2).2.num_mappings - 1) := by
  decide

/-- Claim C2: the length counter is claimed to equal the flattened mapping
count in every reachable state.  The state reached by `insert(1, 2)` followed
by `remove_key(1)` refutes this: `num_mappings()` is `1` while `mappings()` is
empty, because `remove_key` (src/multimap.rs lines 167-174) does not decrement
`length`. -/
theorem c2_length_desync_after_remove_key :
    ((((MultiMap.new : MultiMap Nat Nat).insert 1 2).2.remove_key 1).2.num_mappings = 1) ∧
    ((((MultiMap.new : MultiMap Nat Nat).insert 1 2).2.remove_key 1).2.mappings = []) ∧
    ((((MultiMap.new : MultiMap Nat Nat).insert 1 2).2.remove_key 1).2.num_mappings ≠
      ((((MultiMap.new : MultiMap Nat Nat).insert 1 2).2.remove_key 1).2.mappings).length) := by
  decide

/-- Claim C3: every `MultiSet` mutator is claimed to prune zero-count entries,
in particular `insert_some(v, 0)` on an absent value.  The source
(src/multiset.rs lines 77-81) runs `get_or_insert(value, || 0)` and adds `0`,
leaving a visible zero-count entry: after `insert_some(1, 0)` on an empty
multiset, `count(1) = 0` yet `contains(1)` is `true` and `counts()` yields
`(1, 0)`. -/
theorem c3_insert_some_zero_leaves_zero_count_entry :
    (((MultiSet.new : MultiSet Nat).insert_some 1 0).2.count 1 = 0) ∧
    (((MultiSet.new : MultiSet Nat).insert_some 1 0).2.contains 1 = true) ∧
    (((MultiSet.new : MultiSet Nat).insert_some 1 0).2.iter = []) ∧
    (((MultiSet.new : MultiSet Nat).insert_some 1 0).2.counts = [(1, 0)]) ∧
    (((MultiSet.new : MultiSet Nat).insert_some 1 0).2.len = 0) := by
  decide

/-- Claim C4: a `remove(k, v)` that deletes the last value of `k`, and any
`remove_key(k)`, leave `contains_key(k)` false and `k` out of `keys()`;
a `remove_at_most(x, max)` that brings the count of `x` to zero leaves
`contains(x)` false and `x` out of `iter()` (src/multimap.rs lines 133-152,
167-174; src/multiset.rs lines 159-178). -/
theorem c4_removal_prunes_empty_entries {α β : Type} [LinearOrder α] [LinearOrder β]
    (m : MultiMap α β) (k k2 : α) (v : β) (s : MultiSet α) (x : α) (mx : Nat)
    (hm : mapWF m.map) (hs : mapWF s.map)
    (hlast : m.get k = some [v]) (hcnt : s.count x ≤ mx) :
    ((m.remove k v).2.contains_key k = false ∧ k ∉ (m.remove k v).2.keys) ∧
    ((m.remove_key k2).2.contains_key k2 = false ∧ k2 ∉ (m.remove_key k2).2.keys) ∧
    ((s.remove_at_most x mx).2.contains x = false ∧ x ∉ (s.remove_at_most x mx).2.iter) := by
  have hget : mapGet k m.map = some [v] := hlast
  have hrm : mapGet k (mapRemove k m.map).2 = none := mapGet_mapRemove_self hm
  have hkeys : k ∉ ((mapRemove k m.map).2).map Prod.fst := mapGet_eq_none_iff.1 hrm
  have hrm2 : mapGet k2 (mapRemove k2 m.map).2 = none := mapGet_mapRemove_self hm
  have hkeys2 : k2 ∉ ((mapRemove k2 m.map).2).map Prod.fst := mapGet_eq_none_iff.1 hrm2
  refine ⟨?_, ?_, ?_⟩
  · have hstep : m.remove k v = (true, ⟨(mapRemove k m.map).2, m.length - 1⟩) := by
      simp [MultiMap.remove, hget, setRemove]
    rw [hstep]
    exact ⟨by simp [MultiMap.contains_key, hrm], by simpa [MultiMap.keys] using hkeys⟩
  · refine ⟨by simp [MultiMap.remove_key, MultiMap.contains_key, hrm2], ?_⟩
    simpa [MultiMap.remove_key, MultiMap.keys] using hkeys2
  · cases hg : mapGet x s.map with
    | none =>
      have hstep : s.remove_at_most x mx = (0, s) := by
        simp [MultiSet.remove_at_most, hg]
      rw [hstep]
      refine ⟨by simp [MultiSet.contains, hg], ?_⟩
      intro hmem
      simp only [MultiSet.iter] at hmem
      obtain ⟨p, hp, hmemrep⟩ := List.mem_flatMap.1 hmem
      obtain ⟨-, rfl⟩ := List.mem_replicate.1 hmemrep
      exact absurd (List.mem_map.2 ⟨p, hp, rfl⟩) (mapGet_eq_none_iff.1 hg)
    | some cnt =>
      have hcnt2 : cnt ≤ mx := by simpa [MultiSet.count, hg] using hcnt
      have hz : cnt - min cnt mx = 0 := by omega
      have hstep : s.remove_at_most x mx =
          (cnt, ⟨(mapRemove x s.map).2, s.length - min cnt mx⟩) := by
        simp [MultiSet.remove_at_most, hg, hz]
      have hrmx : mapGet x (mapRemove x s.map).2 = none := mapGet_mapRemove_self hs
      rw [hstep]
      refine ⟨by simp [MultiSet.contains, hrmx], ?_⟩
      intro hmem
      simp only [MultiSet.iter] at hmem
      obtain ⟨p, hp, hmemrep⟩ := List.mem_flatMap.1 hmem
      obtain ⟨-, rfl⟩ := List.mem_replicate.1 hmemrep
      exact absurd (List.mem_map.2 ⟨p, hp, rfl⟩) (mapGet_eq_none_iff.1 hrmx)

/-- Claim C5: `remove_at_most(v, max)` returns the previous count `c`, leaves
`count(v) = c - min(c, max)`, and lowers `len()` by exactly `min(c, max)`
(the decrement is clamped to the stored count, src/multiset.rs lines 159-178);
`remove(v)` is `remove_at_most(v, 1)` (lines 132-139). -/
theorem c5_remove_at_most_clamps {α : Type} [LinearOrder α]
    (s : MultiSet α) (v : α) (mx : Nat)
    (hwf : mapWF s.map) (hle : s.count v ≤ s.len) :
    (s.remove_at_most v mx).1 = s.count v ∧
    (s.remove_at_most v mx).2.count v = s.count v - min (s.count v) mx ∧
    (s.remove_at_most v mx).2.len + min (s.count v) mx = s.len ∧
    s.remove v = s.remove_at_most v 1 := by
  cases hg : mapGet v s.map with
  | none =>
    have hc : s.count v = 0 := by simp [MultiSet.count, hg]
    have hstep : s.remove_at_most v mx = (0, s) := by
      simp [MultiSet.remove_at_most, hg]
    rw [hstep, hc]
    exact ⟨rfl, by simp [hc], by simp, rfl⟩
  | some cnt =>
    have hc : s.count v = cnt := by simp [MultiSet.count, hg]
    have hlen : min cnt mx ≤ s.length := by
      have := hle
      simp only [hc, MultiSet.len] at this
      omega
    by_cases hz : cnt - min cnt mx = 0
    · have hstep : s.remove_at_most v mx =
          (cnt, ⟨(mapRemove v s.map).2, s.length - min cnt mx⟩) := by
        simp [MultiSet.remove_at_most, hg, hz]
      have hrmv : mapGet v (mapRemove v s.map).2 = none := mapGet_mapRemove_self hwf
      rw [hstep, hc]
      refine ⟨rfl, ?_, ?_, rfl⟩
      · simp [MultiSet.count, hrmv, hz]
      · simp only [MultiSet.len]
        omega
    · have hstep : s.remove_at_most v mx =
          (cnt, ⟨mapSet v (cnt - min cnt mx) s.map, s.length - min cnt mx⟩) := by
        simp [MultiSet.remove_at_most, hg, hz]
      rw [hstep, hc]
      refine ⟨rfl, ?_, ?_, rfl⟩
      · simp [MultiSet.count, mapGet_mapSet_self]
      · simp only [MultiSet.len]
        omega

/-- Claim C6: on the sorted backend, `keys()`, `value_sets()` and `mappings()`
are non-decreasing in key order; `mappings_in_range(r)` is exactly the
key-in-`r` filter of `mappings()`, in ascending key order (src/multimap.rs
lines 213-259, 358-371); `range(q)` of a sorted multiset is exactly the
in-range filter of `iter()`, ascending (src/multiset.rs lines 308-312,
346-356). -/
theorem c6_sorted_iteration {α β : Type} [LinearOrder α] [LinearOrder β]
    (m : MultiMap α β) (s : MultiSet α) (r q : KRange α)
    (hm : mapWF m.map) (hs : mapWF s.map) :
    m.keys.Pairwise (· ≤ ·) ∧
    (m.value_sets.map Prod.fst).Pairwise (· ≤ ·) ∧
    ((m.mappings.map Prod.fst).Pairwise (· ≤ ·)) ∧
    m.mappings_in_range r = m.mappings.filter (fun p => r.containsB p.1) ∧
    ((m.mappings_in_range r).map Prod.fst).Pairwise (· ≤ ·) ∧
    s.range q = s.iter.filter (fun y => q.containsB y) ∧
    (s.range q).Pairwise (· ≤ ·) := by
  have hmle : m.map.Pairwise (fun p1 p2 => p1.1 ≤ p2.1) := hm.imp le_of_lt
  refine ⟨?_, ?_, ?_, ?_, ?_, ?_, ?_⟩
  · simpa [MultiMap.keys, List.pairwise_map] using hmle
  · simpa [MultiMap.value_sets, List.pairwise_map] using hmle
  · simp only [MultiMap.mappings, MultiMap.value_sets]
    rw [List.pairwise_map]
    exact pairwise_fst_flatMap_pairs hm
  · simp only [MultiMap.mappings_in_range, MultiMap.mappings, MultiMap.value_sets, mapRange]
    exact flatMap_pairs_filter (fun a => r.containsB a) m.map
  · simp only [MultiMap.mappings_in_range, mapRange]
    rw [List.pairwise_map]
    exact pairwise_fst_flatMap_pairs (mapWF_filter _ hm)
  · simp only [MultiSet.range, MultiSet.iter, mapRange]
    exact flatMap_replicate_filter (fun a => q.containsB a) s.map
  · simp only [MultiSet.range, mapRange]
    exact pairwise_flatMap_replicate (mapWF_filter _ hs)

/-- Claim C7: inserting a pair `(k, v)` not yet present returns `true` and
raises `num_mappings()` by one; the immediately repeated `insert(k, v)`
returns `false` and leaves the container (including the counter) unchanged
(src/multimap.rs lines 62-72). -/
theorem c7_insert_idempotence {α β : Type} [LinearOrder α] [DecidableEq β]
    (m : MultiMap α β) (k : α) (v : β)
    (habs : m.contains k v = false) :
    (m.insert k v).1 = true ∧
    (m.insert k v).2.num_mappings = m.num_mappings + 1 ∧
    ((m.insert k v).2.insert k v).1 = false ∧
    ((m.insert k v).2.insert k v).2 = (m.insert k v).2 := by
  have hnot : v ∉ (mapGet k m.map).getD [] := by
    cases hg : mapGet k m.map with
    | none => simp
    | some s0 =>
      simp only [Option.getD_some]
      simpa [MultiMap.contains, hg, setContains] using habs
  have h1 : m.insert k v =
      (true, ⟨mapSet k ((mapGet k m.map).getD [] ++ [v]) m.map, m.length + 1⟩) := by
    simp [MultiMap.insert, setInsert, hnot]
  have hget1 : mapGet k (mapSet k ((mapGet k m.map).getD [] ++ [v]) m.map)
      = some ((mapGet k m.map).getD [] ++ [v]) := mapGet_mapSet_self k _ m.map
  have hmem : v ∈ (mapGet k m.map).getD [] ++ [v] := by simp
  have h2 : (⟨mapSet k ((mapGet k m.map).getD [] ++ [v]) m.map, m.length + 1⟩ :
        MultiMap α β).insert k v =
      (false, ⟨mapSet k ((mapGet k m.map).getD [] ++ [v])
        (mapSet k ((mapGet k m.map).getD [] ++ [v]) m.map), m.length + 1⟩) := by
    simp [MultiMap.insert, setInsert, hget1, hmem]
  refine ⟨by rw [h1], by rw [h1]; rfl, ?_, ?_⟩
  · rw [h1, h2]
  · rw [h1, h2]
    simp [mapSet_idem]

/-- Claim C8: `set_count(v, n)` returns the previous count `c`, leaves
`count(v) = n` and shifts `len()` by `n - c`; `set_count(v, 0)` delegates to
`remove_all(v)` and removes the entry, so `contains(v)` becomes false
(src/multiset.rs lines 99-112, 196-209). -/
theorem c8_set_count_absolute {α : Type} [LinearOrder α]
    (s : MultiSet α) (v : α) (n : Nat)
    (hwf : mapWF s.map) (hle : s.count v ≤ s.len) :
    (s.set_count v n).1 = s.count v ∧
    (s.set_count v n).2.count v = n ∧
    (s.set_count v n).2.len + s.count v = s.len + n ∧
    (n = 0 → (s.set_count v n).2.contains v = false ∧ s.set_count v n = s.remove_all v) := by
  by_cases hn : n = 0
  · subst hn
    have hsc : s.set_count v 0 = s.remove_all v := by simp [MultiSet.set_count]
    cases hg : mapGet v s.map with
    | none =>
      have hfst : (mapRemove v s.map).1 = none := by rw [mapRemove_fst, hg]
      have hra : s.remove_all v = (0, s) := by simp [MultiSet.remove_all, hfst]
      have hc : s.count v = 0 := by simp [MultiSet.count, hg]
      refine ⟨?_, ?_, ?_, fun _ => ⟨?_, hsc⟩⟩
      · rw [hsc, hra, hc]
      · rw [hsc, hra, hc]
      · rw [hsc, hra, hc]
      · rw [hsc, hra]
        simp [MultiSet.contains, hg]
    | some cnt =>
      have hfst : (mapRemove v s.map).1 = some cnt := by rw [mapRemove_fst, hg]
      have hra : s.remove_all v = (cnt, ⟨(mapRemove v s.map).2, s.length - cnt⟩) := by
        simp [MultiSet.remove_all, hfst]
      have hc : s.count v = cnt := by simp [MultiSet.count, hg]
      have hrmv : mapGet v (mapRemove v s.map).2 = none := mapGet_mapRemove_self hwf
      have hcle : cnt ≤ s.length := by
        rw [hc] at hle
        exact hle
      refine ⟨?_, ?_, ?_, fun _ => ⟨?_, hsc⟩⟩
      · rw [hsc, hra, hc]
      · rw [hsc, hra]
        simp [MultiSet.count, hrmv]
      · rw [hsc, hra, hc]
        simp only [MultiSet.len]
        omega
      · rw [hsc, hra]
        simp [MultiSet.contains, hrmv]
  · have hstep : s.set_count v n =
        ((mapGet v s.map).getD 0,
          ⟨mapSet v n s.map, s.length + n - (mapGet v s.map).getD 0⟩) := by
      simp [MultiSet.set_count, hn]
    have hc : s.count v = (mapGet v s.map).getD 0 := rfl
    have hle2 : (mapGet v s.map).getD 0 ≤ s.length := by
      rw [hc] at hle
      exact hle
    refine ⟨?_, ?_, ?_, fun h0 => absurd h0 hn⟩
    · rw [hstep, hc]
    · rw [hstep]
      simp [MultiSet.count, mapGet_mapSet_self]
    · rw [hstep, hc]
      simp only [MultiSet.len]
      omega

/-- Claim C9: absence is signaled only through return values: removing an
absent `(k, v)` pair returns `false` and leaves the multimap unchanged;
`remove`/`remove_at_most`/`remove_all` of an absent value return previous
count `0` and leave the multiset unchanged; `get` of an absent key returns
`None` (src/multimap.rs lines 133-152, 190-197; src/multiset.rs lines
132-209). -/
theorem c9_absent_removal_is_noop {α β : Type} [LinearOrder α] [DecidableEq β]
    (m : MultiMap α β) (k k2 : α) (v : β) (s : MultiSet α) (x : α) (mx : Nat)
    (hmv : m.contains k v = false) (hsx : s.contains x = false)
    (hk2 : m.contains_key k2 = false) :
    m.remove k v = (false, m) ∧
    s.remove x = (0, s) ∧
    s.remove_at_most x mx = (0, s) ∧
    s.remove_all x = (0, s) ∧
    m.get k2 = none := by
  have hgx : mapGet x s.map = none := by
    cases h : mapGet x s.map with
    | none => rfl
    | some c => simp [MultiSet.contains, h] at hsx
  have hfst : (mapRemove x s.map).1 = none := by rw [mapRemove_fst, hgx]
  have h1 : m.remove k v = (false, m) := by
    cases hg : mapGet k m.map with
    | none => simp [MultiMap.remove, hg]
    | some s0 =>
      have hv : v ∉ s0 := by simpa [MultiMap.contains, hg, setContains] using hmv
      simp [MultiMap.remove, hg, setRemove, hv]
  have hg2 : mapGet k2 m.map = none := by
    cases h : mapGet k2 m.map with
    | none => rfl
    | some s0 => simp [MultiMap.contains_key, h] at hk2
  refine ⟨h1, ?_, ?_, ?_, hg2⟩
  · simp [MultiSet.remove, MultiSet.remove_at_most, hgx]
  · simp [MultiSet.remove_at_most, hgx]
  · simp [MultiSet.remove_all, hfst]

/-- Claim C10: the `Set`/`Container` adapter of src/sets.rs (lines 120-158)
reports `insert(v)` as newly-added exactly when the previous count was `0`
(a duplicate insert reports `false` though the multiplicity grows), and
reports `remove(v)` as removed exactly when the previous count was `1`
(removing at count `≥ 2` returns `false` though one occurrence is removed). -/
theorem c10_multiset_as_set_adapter {α : Type} [LinearOrder α]
    (s : MultiSet α) (v : α) :
    ((s.set_adapter_insert v).1 = true ↔ s.count v = 0) ∧
    ((s.container_adapter_remove v).1 = true ↔ s.count v = 1) ∧
    (1 ≤ s.count v → (s.set_adapter_insert v).1 = false ∧
      (s.set_adapter_insert v).2.count v = s.count v + 1) ∧
    (2 ≤ s.count v → (s.container_adapter_remove v).1 = false ∧
      (s.container_adapter_remove v).2.count v + 1 = s.count v) := by
  have hins : s.set_adapter_insert v =
      (decide ((mapGet v s.map).getD 0 = 0),
        ⟨mapSet v ((mapGet v s.map).getD 0 + 1) s.map, s.length + 1⟩) := by
    simp [MultiSet.set_adapter_insert, MultiSet.insert, MultiSet.insert_some]
  have hc : s.count v = (mapGet v s.map).getD 0 := rfl
  refine ⟨?_, ?_, ?_, ?_⟩
  · rw [hins, hc]
    simp
  · cases hg : mapGet v s.map with
    | none =>
      simp [MultiSet.container_adapter_remove, MultiSet.remove, MultiSet.remove_at_most,
        hg, MultiSet.count]
    | some cnt =>
      simp [MultiSet.container_adapter_remove, MultiSet.remove, MultiSet.remove_at_most,
        hg, MultiSet.count]
  · intro hpos
    rw [hc] at hpos
    constructor
    · rw [hins]
      simpa using Nat.pos_iff_ne_zero.1 hpos
    · rw [hins, hc]
      simp [MultiSet.count, mapGet_mapSet_self]
  · intro h2
    rw [hc] at h2
    cases hg : mapGet v s.map with
    | none => rw [hg] at h2; simp at h2
    | some cnt =>
      rw [hg] at h2
      simp only [Option.getD_some] at h2
      have hmin : min cnt 1 = 1 := by omega
      have hz : ¬(cnt - min cnt 1 = 0) := by omega
      have hstep : s.container_adapter_remove v =
          (decide (cnt = 1),
            ⟨mapSet v (cnt - min cnt 1) s.map, s.length - min cnt 1⟩) := by
        simp [MultiSet.container_adapter_remove, MultiSet.remove, MultiSet.remove_at_most,
          hg, hz]
      rw [hstep, hc, hg]
      refine ⟨by simp; omega, ?_⟩
      simp [MultiSet.count, mapGet_mapSet_self]
      omega

/-! ### Witnesses instantiating the hypotheses of the claim theorems -/

/-- Witness for C4 at a concrete multimap (with a two-value key for
`remove_key`) and a concrete multiset. -/
theorem c4_removal_prunes_empty_entries_witness :
    mapWF (⟨[(1, [5]), (2, [6, 7])], 3⟩ : MultiMap Nat Nat).map ∧
    mapWF (⟨[(2, 3)], 3⟩ : MultiSet Nat).map ∧
    (⟨[(1, [5]), (2, [6, 7])], 3⟩ : MultiMap Nat Nat).get 1 = some [5] ∧
    (⟨[(2, 3)], 3⟩ : MultiSet Nat).count 2 ≤ 5 ∧
    ((((⟨[(1, [5]), (2, [6, 7])], 3⟩ : MultiMap Nat Nat).remove 1 5).2.contains_key 1 =
          false ∧
        1 ∉ ((⟨[(1, [5]), (2, [6, 7])], 3⟩ : MultiMap Nat Nat).remove 1 5).2.keys) ∧
      (((⟨[(1, [5]), (2, [6, 7])], 3⟩ : MultiMap Nat Nat).remove_key 2).2.contains_key 2 =
          false ∧
        2 ∉ ((⟨[(1, [5]), (2, [6, 7])], 3⟩ : MultiMap Nat Nat).remove_key 2).2.keys) ∧
      (((⟨[(2, 3)], 3⟩ : MultiSet Nat).remove_at_most 2 5).2.contains 2 = false ∧
        2 ∉ ((⟨[(2, 3)], 3⟩ : MultiSet Nat).remove_at_most 2 5).2.iter)) :=
  ⟨by decide, by decide, by decide, by decide,
    c4_removal_prunes_empty_entries ⟨[(1, [5]), (2, [6, 7])], 3⟩ 1 2 5 ⟨[(2, 3)], 3⟩ 2 5
      (by decide) (by decide) (by decide) (by decide)⟩

/-- Witness for C5 at a concrete multiset. -/
theorem c5_remove_at_most_clamps_witness :
    mapWF (⟨[(2, 3)], 3⟩ : MultiSet Nat).map ∧
    (⟨[(2, 3)], 3⟩ : MultiSet Nat).count 2 ≤ (⟨[(2, 3)], 3⟩ : MultiSet Nat).len ∧
    (((⟨[(2, 3)], 3⟩ : MultiSet Nat).remove_at_most 2 1).1 =
        (⟨[(2, 3)], 3⟩ : MultiSet Nat).count 2 ∧
      ((⟨[(2, 3)], 3⟩ : MultiSet Nat).remove_at_most 2 1).2.count 2 =
        (⟨[(2, 3)], 3⟩ : MultiSet Nat).count 2 -
          min ((⟨[(2, 3)], 3⟩ : MultiSet Nat).count 2) 1 ∧
      ((⟨[(2, 3)], 3⟩ : MultiSet Nat).remove_at_most 2 1).2.len +
          min ((⟨[(2, 3)], 3⟩ : MultiSet Nat).count 2) 1 =
        (⟨[(2, 3)], 3⟩ : MultiSet Nat).len ∧
      (⟨[(2, 3)], 3⟩ : MultiSet Nat).remove 2 =
        (⟨[(2, 3)], 3⟩ : MultiSet Nat).remove_at_most 2 1) :=
  ⟨by decide, by decide,
    c5_remove_at_most_clamps ⟨[(2, 3)], 3⟩ 2 1 (by decide) (by decide)⟩

/-- Witness for C6 at a concrete sorted multimap, multiset and ranges. -/
theorem c6_sorted_iteration_witness :
    mapWF (⟨[(1, [2]), (2, [3])], 2⟩ : MultiMap Nat Nat).map ∧
    mapWF (⟨[(1, 2), (2, 3)], 5⟩ : MultiSet Nat).map ∧
    ((⟨[(1, [2]), (2, [3])], 2⟩ : MultiMap Nat Nat).keys.Pairwise (· ≤ ·) ∧
      ((⟨[(1, [2]), (2, [3])], 2⟩ : MultiMap Nat Nat).value_sets.map Prod.fst).Pairwise
        (· ≤ ·) ∧
      (((⟨[(1, [2]), (2, [3])], 2⟩ : MultiMap Nat Nat).mappings.map Prod.fst).Pairwise
        (· ≤ ·)) ∧
      (⟨[(1, [2]), (2, [3])], 2⟩ : MultiMap Nat Nat).mappings_in_range
          ⟨RBound.incl 1, RBound.excl 2⟩ =
        (⟨[(1, [2]), (2, [3])], 2⟩ : MultiMap Nat Nat).mappings.filter
          (fun p => KRange.containsB ⟨RBound.incl 1, RBound.excl 2⟩ p.1) ∧
      (((⟨[(1, [2]), (2, [3])], 2⟩ : MultiMap Nat Nat).mappings_in_range
          ⟨RBound.incl 1, RBound.excl 2⟩).map Prod.fst).Pairwise (· ≤ ·) ∧
      (⟨[(1, 2), (2, 3)], 5⟩ : MultiSet Nat).range ⟨RBound.incl 2, RBound.unb⟩ =
        (⟨[(1, 2), (2, 3)], 5⟩ : MultiSet Nat).iter.filter
          (fun y => KRange.containsB ⟨RBound.incl 2, RBound.unb⟩ y) ∧
      ((⟨[(1, 2), (2, 3)], 5⟩ : MultiSet Nat).range
        ⟨RBound.incl 2, RBound.unb⟩).Pairwise (· ≤ ·)) :=
  ⟨by decide, by decide,
    c6_sorted_iteration ⟨[(1, [2]), (2, [3])], 2⟩ ⟨[(1, 2), (2, 3)], 5⟩
      ⟨RBound.incl 1, RBound.excl 2⟩ ⟨RBound.incl 2, RBound.unb⟩
      (by decide) (by decide)⟩

/-- Witness for C7 at a concrete multimap and an absent pair. -/
theorem c7_insert_idempotence_witness :
    (⟨[(1, [3])], 1⟩ : MultiMap Nat Nat).contains 1 2 = false ∧
    (((⟨[(1, [3])], 1⟩ : MultiMap Nat Nat).insert 1 2).1 = true ∧
      ((⟨[(1, [3])], 1⟩ : MultiMap Nat Nat).insert 1 2).2.num_mappings =
        (⟨[(1, [3])], 1⟩ : MultiMap Nat Nat).num_mappings + 1 ∧
      (((⟨[(1, [3])], 1⟩ : MultiMap Nat Nat).insert 1 2).2.insert 1 2).1 = false ∧
      (((⟨[(1, [3])], 1⟩ : MultiMap Nat Nat).insert 1 2).2.insert 1 2).2 =
        ((⟨[(1, [3])], 1⟩ : MultiMap Nat Nat).insert 1 2).2) :=
  ⟨by decide, c7_insert_idempotence ⟨[(1, [3])], 1⟩ 1 2 (by decide)⟩

/-- Witness for C8 at a concrete multiset, setting the count to zero. -/
theorem c8_set_count_absolute_witness :
    mapWF (⟨[(2, 3)], 3⟩ : MultiSet Nat).map ∧
    (⟨[(2, 3)], 3⟩ : MultiSet Nat).count 2 ≤ (⟨[(2, 3)], 3⟩ : MultiSet Nat).len ∧
    (((⟨[(2, 3)], 3⟩ : MultiSet Nat).set_count 2 0).1 =
        (⟨[(2, 3)], 3⟩ : MultiSet Nat).count 2 ∧
      ((⟨[(2, 3)], 3⟩ : MultiSet Nat).set_count 2 0).2.count 2 = 0 ∧
      ((⟨[(2, 3)], 3⟩ : MultiSet Nat).set_count 2 0).2.len +
          (⟨[(2, 3)], 3⟩ : MultiSet Nat).count 2 =
        (⟨[(2, 3)], 3⟩ : MultiSet Nat).len + 0 ∧
      (0 = 0 → ((⟨[(2, 3)], 3⟩ : MultiSet Nat).set_count 2 0).2.contains 2 = false ∧
        (⟨[(2, 3)], 3⟩ : MultiSet Nat).set_count 2 0 =
          (⟨[(2, 3)], 3⟩ : MultiSet Nat).remove_all 2)) :=
  ⟨by decide, by decide,
    c8_set_count_absolute ⟨[(2, 3)], 3⟩ 2 0 (by decide) (by decide)⟩

/-- Witness for C9 at a concrete multimap and multiset with absent targets. -/
theorem c9_absent_removal_is_noop_witness :
    (⟨[(1, [3])], 1⟩ : MultiMap Nat Nat).contains 1 2 = false ∧
    (⟨[(2, 3)], 3⟩ : MultiSet Nat).contains 5 = false ∧
    (⟨[(1, [3])], 1⟩ : MultiMap Nat Nat).contains_key 7 = false ∧
    ((⟨[(1, [3])], 1⟩ : MultiMap Nat Nat).remove 1 2 =
        (false, (⟨[(1, [3])], 1⟩ : MultiMap Nat Nat)) ∧
      (⟨[(2, 3)], 3⟩ : MultiSet Nat).remove 5 = (0, (⟨[(2, 3)], 3⟩ : MultiSet Nat)) ∧
      (⟨[(2, 3)], 3⟩ : MultiSet Nat).remove_at_most 5 4 =
        (0, (⟨[(2, 3)], 3⟩ : MultiSet Nat)) ∧
      (⟨[(2, 3)], 3⟩ : MultiSet Nat).remove_all 5 = (0, (⟨[(2, 3)], 3⟩ : MultiSet Nat)) ∧
      (⟨[(1, [3])], 1⟩ : MultiMap Nat Nat).get 7 = none) :=
  ⟨by decide, by decide, by decide,
    c9_absent_removal_is_noop ⟨[(1, [3])], 1⟩ 1 7 2 ⟨[(2, 3)], 3⟩ 5 4
      (by decide) (by decide) (by decide)⟩

/-- Witness for C10 at a concrete multiset with count `3`. -/
theorem c10_multiset_as_set_adapter_witness :
    1 ≤ (⟨[(2, 3)], 3⟩ : MultiSet Nat).count 2 ∧
    (((⟨[(2, 3)], 3⟩ : MultiSet Nat).set_adapter_insert 2).1 = false ∧
      ((⟨[(2, 3)], 3⟩ : MultiSet Nat).set_adapter_insert 2).2.count 2 =
        (⟨[(2, 3)], 3⟩ : MultiSet Nat).count 2 + 1) ∧
    2 ≤ (⟨[(2, 3)], 3⟩ : MultiSet Nat).count 2 ∧
    (((⟨[(2, 3)], 3⟩ : MultiSet Nat).container_adapter_remove 2).1 = false ∧
      ((⟨[(2, 3)], 3⟩ : MultiSet Nat).container_adapter_remove 2).2.count 2 + 1 =
        (⟨[(2, 3)], 3⟩ : MultiSet Nat).count 2) :=
  ⟨by decide,
    (c10_multiset_as_set_adapter ⟨[(2, 3)], 3⟩ 2).2.2.1 (by decide),
    by decide,
    (c10_multiset_as_set_adapter ⟨[(2, 3)], 3⟩ 2).2.2.2 (by decide)⟩

end MultiContainers
